import Mathlib

/-!
Verification development for the lightning-address-details proxy
(two Go variants: src/main.go, called variant A below, and
src/unnamed/part_000, called variant B below).

The HTTP layer is shallowly embedded: an upstream environment maps a URL
string to either a transport error or an HTTP response carrying a status
code, response headers, and (when the body bytes parse) a decoded JSON
value.  Handlers become pure functions from the environment and the
inbound query string to an HTTP result; a Go nil-pointer dereference or
failing type assertion is modelled as the distinguished result panic
(the echo Recover middleware turns it into a 500 in production).

Modelling notes, kept uniform across the file:
  - Go interface{} values produced by encoding/json are modelled by the
    Json inductive; the Go nil interface (JSON null) is Json.null.
  - url.Values is a multimap; it is modelled as a list of key/value
    pairs, where the values for key k are the pairs whose first
    component is k, in list order (Values.Add appends to that list).
  - Values.Encode percent-escaping (QueryEscape) is modelled as the
    identity; every concrete string in this file contains only
    characters that Go would leave unescaped.  Values.Encode sorts by
    key, which sortPairs reproduces (stable, so order within one key is
    preserved, as in Go).
  - The goroutines of the details handler assign disjoint response and
    body variables and are joined by a wait group before any read, so
    they are modelled by three sequential fetches.  The variants share
    one err variable between goroutines (a benign-looking data race);
    the model takes the common-case schedule in which each goroutine
    observes its own assignment.
  - fmt.Errorf texts are reproduced up to the formatted detail of the
    underlying error value.
-/

/-- Decoded JSON values, the model of Go interface{} results of
encoding/json.  Json.null stands for the Go nil interface. -/
inductive Json where
  | null : Json
  | bool : Bool → Json
  | num : Int → Json
  | str : String → Json
  | arr : List Json → Json
  | obj : List (String × Json) → Json
deriving Repr

/-- One upstream HTTP response: its status code, its headers, and the
decoded JSON body when the body bytes parse (none models a body that
json.Decode rejects). -/
structure HttpResp where
  statusCode : Nat
  headers : List (String × String)
  decoded : Option Json
deriving Repr

/-- Outcome of http.Get for one URL: a transport error (err carries the
error text) or a response. -/
inductive Transport where
  | err : String → Transport
  | ok : HttpResp → Transport
deriving Repr

/-- The upstream world: what http.Get returns for each URL string. -/
abbrev Env := String → Transport

/-- The triple returned by GetJSON in Go: the decoded body (nil when the
call failed), the raw response pointer (none models nil), and the error
(none models a nil error). -/
structure FetchOut where
  body : Option Json
  resp : Option HttpResp
  err : Option String
deriving Repr

/-- Go Header.Get: the first value for the key, or the empty string. -/
def headerGet (hs : List (String × String)) (k : String) : String :=
  match hs.find? (fun p => p.1 == k) with
  | some p => p.2
  | none => ""

/-- GetJSON of variant A (src/main.go lines 50-67): http.Get the URL;
classify as failure when the transport call errors or the status code
is strictly greater than 300; otherwise decode the body, reporting a
decode error as a distinct failure; the response is returned on every
path on which http.Get produced one. -/
def GetJSON (env : Env) (url : String) : FetchOut :=
  match env url with
  | Transport.err m => ⟨none, none, some ("No details: " ++ url ++ " - " ++ m)⟩
  | Transport.ok r =>
    if 300 < r.statusCode then
      ⟨none, some r, some ("No details: " ++ url ++ " - <nil>")⟩
    else
      match r.decoded with
      | none => ⟨none, some r, some "Invalid JSON"⟩
      | some j => ⟨some j, some r, none⟩

/-- Go strings.Replace(s, old, new, 1) for a non-empty old: replace the
first occurrence of old in s. -/
def replaceOnce (oldPart newPart : List Char) : List Char → List Char
  | [] => []
  | c :: rest =>
    if oldPart.isPrefixOf (c :: rest) then
      newPart ++ (c :: rest).drop oldPart.length
    else
      c :: replaceOnce oldPart newPart rest

/-- The hostname rewrite of variant B (src/unnamed/part_000 lines
51-54): the first occurrence of the getalby.com URL base is replaced by
an internal address before dispatching the fetch. -/
def rewriteAlby (url : String) : String :=
  String.mk (replaceOnce ("https://getalby.com".data) ("http://alby-mainnet-getalbycom".data) url.data)

/-- GetJSON of variant B (src/unnamed/part_000 lines 46-69): identical
classification to variant A, but the fetched URL first goes through the
hostname rewrite; error texts use the original URL, as in the source. -/
def GetJSON_B (env : Env) (url : String) : FetchOut :=
  match env (rewriteAlby url) with
  | Transport.err m => ⟨none, none, some ("no details: " ++ url ++ " - " ++ m)⟩
  | Transport.ok r =>
    if 300 < r.statusCode then
      ⟨none, some r, some ("no details: " ++ url ++ " - <nil>")⟩
    else
      match r.decoded with
      | none => ⟨none, some r, some "invalid JSON"⟩
      | some j => ⟨some j, some r, none⟩

/-- Go strings.Split for a one-character separator: splitting the empty
string yields one empty part, and each separator occurrence starts a new
part. -/
def splitOnChar (sep : Char) : List Char → List (List Char)
  | [] => [[]]
  | c :: rest =>
    if c = sep then
      [] :: splitOnChar sep rest
    else
      match splitOnChar sep rest with
      | [] => [[c]]
      | h :: t => (c :: h) :: t

/-- ToUrl (src/main.go lines 69-80 and src/unnamed/part_000 lines
71-82, identical): split the identifier on the at sign; when that does
not give exactly two parts, fail; otherwise build the three well-known
URLs from the domain (second part) and local part (first part). -/
def ToUrl (identifier : String) : Except String (String × String × String) :=
  match splitOnChar '@' identifier.data with
  | [localPart, domain] =>
    Except.ok ("https://" ++ String.mk domain ++ "/.well-known/lnurlp/" ++ String.mk localPart,
               "https://" ++ String.mk domain ++ "/.well-known/keysend/" ++ String.mk localPart,
               "https://" ++ String.mk domain ++ "/.well-known/nostr.json?name=" ++ String.mk localPart)
  | _ => Except.error ("Invalid lightning address " ++ identifier)

/-- Go url.Values.Get via echo QueryParam: the first value for the key
in the inbound query, or the empty string. -/
def queryGet (q : List (String × String)) (k : String) : String :=
  match q.find? (fun p => p.1 == k) with
  | some p => p.2
  | none => ""

/-- The values a url.Values multimap holds for one key, in list order. -/
def valuesAt (k : String) (ps : List (String × String)) : List String :=
  (ps.filter (fun p => p.1 == k)).map Prod.snd

/-- The caller-supplied invoice parameters: the inbound query after
QueryParams().Del removed every ln entry (both variants, src/main.go
line 203 and src/unnamed/part_000 line 221). -/
def invoiceParamsOf (q : List (String × String)) : List (String × String) :=
  q.filter (fun p => p.1 != "ln")

/-- Lexicographic code-point comparison of character lists, the order
Go's sort.Strings induces on the keys handled here. -/
def charListLt : List Char → List Char → Bool
  | [], [] => false
  | [], _ :: _ => true
  | _ :: _, [] => false
  | a :: as, b :: bs =>
    if a.toNat < b.toNat then true
    else if b.toNat < a.toNat then false
    else charListLt as bs

/-- Key order used by url.Values.Encode. -/
def keyLt (a b : String) : Bool := charListLt a.data b.data

/-- Stable insertion of one pair into a key-sorted pair list: the pair
goes before the first strictly greater key, hence after equal keys. -/
def insertByKey (p : String × String) : List (String × String) → List (String × String)
  | [] => [p]
  | q :: t => if keyLt p.1 q.1 then p :: q :: t else q :: insertByKey p t

/-- Stable sort of query pairs by key, as url.Values.Encode sorts keys
while keeping each key's values in multimap order. -/
def sortPairs (ps : List (String × String)) : List (String × String) :=
  ps.foldl (fun acc p => insertByKey p acc) []

/-- Go url.Values.Encode: keys sorted, pairs joined as k=v with
ampersands; QueryEscape is modelled as the identity (all concrete
strings in this file are unescaped-safe). -/
def encodeQuery (ps : List (String × String)) : String :=
  String.intercalate "&" ((sortPairs ps).map (fun p => p.1 ++ "=" ++ p.2))

/-- Split a character list at the first occurrence of the separator;
when the separator is absent the remainder is empty. -/
def splitAtFirstChar (sep : Char) : List Char → List Char × List Char
  | [] => ([], [])
  | c :: rest =>
    if c = sep then
      ([], rest)
    else
      let p := splitAtFirstChar sep rest
      (c :: p.1, p.2)

/-- Go url.ParseQuery on a raw query string: ampersand-separated
segments, empty segments skipped, each segment split at its first
equals sign; unescaping is modelled as the identity. -/
def parseQuery (raw : String) : List (String × String) :=
  (splitOnChar '&' raw.data).filterMap fun piece =>
    match piece with
    | [] => none
    | _ =>
      let p := splitAtFirstChar '=' piece
      some (String.mk p.1, String.mk p.2)

/-- The parts of a parsed URL the proxy manipulates: everything before
the query, and the raw query string. -/
structure Url where
  base : String
  rawQuery : String
deriving Repr

/-- Go url.Parse, restricted to what the proxy needs: it fails on
control characters and otherwise splits the string at the first
question mark into base and raw query. -/
def parseUrl (s : String) : Option Url :=
  if s.data.any (fun c => c.val < 32) then none
  else
    let p := splitAtFirstChar '?' s.data
    some ⟨String.mk p.1, String.mk p.2⟩

/-- Go URL.Query(): the parsed raw query of the URL. -/
def urlQuery (u : Url) : List (String × String) := parseQuery u.rawQuery

/-- Go URL.String() after the proxy set RawQuery: the base, then the
raw query after a question mark when it is non-empty. -/
def urlString (u : Url) : String :=
  if u.rawQuery = "" then u.base else u.base ++ "?" ++ u.rawQuery

/-- The invoice URL of variant A (src/main.go lines 203-206): the
callback string, a question mark, and the encoded caller parameters
are concatenated directly, with no parsing of the callback. -/
def invoiceUrlA (cb : String) (q : List (String × String)) : String :=
  cb ++ "?" ++ encodeQuery (invoiceParamsOf q)

/-- The invoice URL of variant B (src/unnamed/part_000 lines 221-236):
the callback is parsed as a URL, the caller parameters (ln removed) are
Added after the callback's own query values, and the re-encoded query
replaces RawQuery. -/
def invoiceUrlB (cb : String) (q : List (String × String)) : Option Url :=
  match parseUrl cb with
  | none => none
  | some u => some ⟨u.base, encodeQuery (urlQuery u ++ invoiceParamsOf q)⟩

/-- What a handler produces for one request: an HTTP response (status,
response headers, JSON body) or a runtime panic (nil-pointer
dereference or failed type assertion; echo's Recover middleware turns
it into a 500). -/
inductive HResult where
  | resp : Nat → List (String × String) → Json → HResult
  | panic : HResult
deriving Repr

/-- Marshalling of a Go interface{} field: the nil interface (an
absent result) marshals as JSON null. -/
def jsonOfOpt : Option Json → Json
  | none => Json.null
  | some j => j

/-- The value a goroutine leaves in its result slot: the decoded body
when its GetJSON call returned a nil error, the nil interface
otherwise. -/
def slotOfFetch (f : FetchOut) : Option Json :=
  if f.err.isNone then f.body else none

/-- The LNResponse body of variant A: the three slots and the always
present error member (zero-valued when never assigned). -/
def lnBodyA (l k n : Option Json) (es : Nat) (em : String) : Json :=
  Json.obj [("lnurlp", jsonOfOpt l), ("keysend", jsonOfOpt k), ("nostr", jsonOfOpt n),
            ("error", Json.obj [("status", Json.num (Int.ofNat es)), ("message", Json.str em)])]

/-- The LNResponse body of variant B: only the three slots. -/
def lnBodyB (l k n : Option Json) : Json :=
  Json.obj [("lnurlp", jsonOfOpt l), ("keysend", jsonOfOpt k), ("nostr", jsonOfOpt n)]

/-- The GIResponse body of both variants. -/
def giBody (inv : Option Json) : Json :=
  Json.obj [("invoice", jsonOfOpt inv)]

/-- Go map indexing on a decoded JSON object (decoded objects have
distinct keys): the value under the key, or none when absent. -/
def jsonField (fields : List (String × Json)) (k : String) : Option Json :=
  (fields.find? (fun p => p.1 == k)).map Prod.snd

/-- The lightning-address-details handler of variant A (src/main.go
lines 114-172).  The three fetches run in goroutines joined by a wait
group; after the join the failure test dereferences lnurlpResponse as
soon as not all three responses are nil, and the all-nil failure branch
dereferences the nil lnurlpResponse to build ErrorResponse, so both
paths can panic; the all-failed branch also calls Error() on
lnurlpError, which panics when that error is nil. -/
def detailsHandlerA (env : Env) (q : List (String × String)) : HResult :=
  let ln := queryGet q "ln"
  match ToUrl ln with
  | Except.error _ => HResult.resp 400 [] (lnBodyA none none none 0 "")
  | Except.ok (lnurlpUrl, keysendUrl, nostrUrl) =>
    let fl := GetJSON env lnurlpUrl
    let fk := GetJSON env keysendUrl
    let fn := GetJSON env nostrUrl
    let slots := fun (es : Nat) (em : String) =>
      lnBodyA (slotOfFetch fl) (slotOfFetch fk) (slotOfFetch fn) es em
    let success := fun (rl : HttpResp) =>
      HResult.resp 200 [("Cache-Control", headerGet rl.headers "Cache-Control")] (slots 0 "")
    if fl.resp.isNone && fk.resp.isNone && fn.resp.isNone then
      HResult.panic
    else
      match fl.resp with
      | none => HResult.panic
      | some rl =>
        if 300 ≤ rl.statusCode then
          match fk.resp with
          | none => HResult.panic
          | some rk =>
            if 300 ≤ rk.statusCode then
              match fn.resp with
              | none => HResult.panic
              | some rn =>
                if 300 ≤ rn.statusCode then
                  match fl.err with
                  | none => HResult.panic
                  | some m => HResult.resp 400 [] (slots rl.statusCode m)
                else success rl
            else success rl
        else success rl

/-- The lightning-address-details handler of variant B
(src/unnamed/part_000 lines 120-187): same aggregation, but the body
has no error member and both failure branches respond 400 without
touching lnurlpResponse or the error, so only the mixed nil/non-nil
response case panics (inside the second clause of the failure test). -/
def detailsHandlerB (env : Env) (q : List (String × String)) : HResult :=
  let ln := queryGet q "ln"
  match ToUrl ln with
  | Except.error _ => HResult.resp 400 [] (lnBodyB none none none)
  | Except.ok (lnurlpUrl, keysendUrl, nostrUrl) =>
    let fl := GetJSON_B env lnurlpUrl
    let fk := GetJSON_B env keysendUrl
    let fn := GetJSON_B env nostrUrl
    let slots := lnBodyB (slotOfFetch fl) (slotOfFetch fk) (slotOfFetch fn)
    let success := fun (rl : HttpResp) =>
      HResult.resp 200 [("Cache-Control", headerGet rl.headers "Cache-Control")] slots
    if fl.resp.isNone && fk.resp.isNone && fn.resp.isNone then
      HResult.resp 400 [] slots
    else
      match fl.resp with
      | none => HResult.panic
      | some rl =>
        if 300 ≤ rl.statusCode then
          match fk.resp with
          | none => HResult.panic
          | some rk =>
            if 300 ≤ rk.statusCode then
              match fn.resp with
              | none => HResult.panic
              | some rn =>
                if 300 ≤ rn.statusCode then
                  HResult.resp 400 [] slots
                else success rl
            else success rl
        else success rl

/-- The generate-invoice handler of variant A (src/main.go lines
174-222): fetch lnurlp; 400 when no response; forward the lnurlp
status when it exceeds 300; type-assert the decoded body to a map
(panicking when it is not an object or is the nil interface), extract
callback (nil yields 400), type-assert it to a string (panicking on
any other kind), fetch the concatenated invoice URL, and on an invoice
status above 300 respond with the stale lnurlp status. -/
def giHandlerA (env : Env) (q : List (String × String)) : HResult :=
  let ln := queryGet q "ln"
  match ToUrl ln with
  | Except.error _ => HResult.resp 400 [] (giBody none)
  | Except.ok (lnurlpUrl, _, _) =>
    let fl := GetJSON env lnurlpUrl
    match fl.resp with
    | none => HResult.resp 400 [] (giBody none)
    | some rl =>
      if 300 < rl.statusCode then HResult.resp rl.statusCode [] (giBody none)
      else
        match fl.body with
        | some (Json.obj fields) =>
          match jsonField fields "callback" with
          | none => HResult.resp 400 [] (giBody none)
          | some Json.null => HResult.resp 400 [] (giBody none)
          | some (Json.str cb) =>
            let fi := GetJSON env (invoiceUrlA cb q)
            let inv := slotOfFetch fi
            match fi.resp with
            | none => HResult.resp 400 [] (giBody inv)
            | some ri =>
              if 300 < ri.statusCode then HResult.resp rl.statusCode [] (giBody inv)
              else HResult.resp 200 [] (giBody inv)
          | some _ => HResult.panic
        | some _ => HResult.panic
        | none => HResult.panic

/-- Slot content determined by a response alone: what a fetch that
produced this response contributes to its result slot (none when the
status exceeds 300 or the body does not decode). -/
def respSlot (r : HttpResp) : Option Json :=
  if 300 < r.statusCode then none else r.decoded

/-- The generate-invoice handler of variant B (src/unnamed/part_000
lines 189-255): as variant A except that the callback is parsed as a
URL (a parse failure yields 400) and the caller parameters are merged
into its query; the stale lnurlp status on a failed invoice fetch is
identical (line 250). -/
def giHandlerB (env : Env) (q : List (String × String)) : HResult :=
  let ln := queryGet q "ln"
  match ToUrl ln with
  | Except.error _ => HResult.resp 400 [] (giBody none)
  | Except.ok (lnurlpUrl, _, _) =>
    let fl := GetJSON_B env lnurlpUrl
    match fl.resp with
    | none => HResult.resp 400 [] (giBody none)
    | some rl =>
      if 300 < rl.statusCode then HResult.resp rl.statusCode [] (giBody none)
      else
        match fl.body with
        | some (Json.obj fields) =>
          match jsonField fields "callback" with
          | none => HResult.resp 400 [] (giBody none)
          | some Json.null => HResult.resp 400 [] (giBody none)
          | some (Json.str cb) =>
            match invoiceUrlB cb q with
            | none => HResult.resp 400 [] (giBody none)
            | some u =>
              let fi := GetJSON_B env (urlString u)
              let inv := slotOfFetch fi
              match fi.resp with
              | none => HResult.resp 400 [] (giBody inv)
              | some ri =>
                if 300 < ri.statusCode then HResult.resp rl.statusCode [] (giBody inv)
                else HResult.resp 200 [] (giBody inv)
          | some _ => HResult.panic
        | some _ => HResult.panic
        | none => HResult.panic



/-- Upstream world in which every URL answers 200 with an empty JSON
object and a Cache-Control header. -/
def envAllOk : Env := fun _ =>
  Transport.ok ⟨200, [("Cache-Control", "max-age=60")], some (Json.obj [])⟩

/-- Upstream world in which every URL answers status 300 with a valid
JSON object body. -/
def envStatus300 : Env := fun _ =>
  Transport.ok ⟨300, [], some (Json.obj [])⟩

/-- Upstream world for the aggregate boundary case: the keysend
endpoint answers status 300 with a decodable body (GetJSON classifies
it as a success), every other URL answers 500 with an undecodable
body. -/
def envKeysend300 : Env := fun u =>
  if u = "https://e.c/.well-known/keysend/a" then
    Transport.ok ⟨300, [], some (Json.obj [("pubkey", Json.str "k")])⟩
  else Transport.ok ⟨500, [], none⟩

/-- Upstream world for the lnurlp transport-failure case: http.Get for
the lnurlp URL errors before any response exists, both other discovery
URLs answer 200 with a JSON object. -/
def envLnurlpDown : Env := fun u =>
  if u = "https://e.c/.well-known/lnurlp/a" then Transport.err "connection refused"
  else Transport.ok ⟨200, [], some (Json.obj [])⟩

/-- Upstream world for the stale-status case: lnurlp answers 200 with a
document whose callback is a plain URL, the invoice callback URL
answers 404, everything else is unreachable. -/
def envInvoice404 : Env := fun u =>
  if u = "https://e.c/.well-known/lnurlp/a" then
    Transport.ok ⟨200, [], some (Json.obj [("callback", Json.str "https://pay.example/cb")])⟩
  else if u = "https://pay.example/cb?amount=21" then
    Transport.ok ⟨404, [], some (Json.str "nf")⟩
  else Transport.err "nope"

/-- Upstream world in which every URL answers 200 with a JSON array
body, a decoded value that is not an object. -/
def envArrayBody : Env := fun _ =>
  Transport.ok ⟨200, [], some (Json.arr [])⟩

theorem splitOnChar_of_not_mem (sep : Char) (l : List Char) (h : sep ∉ l) :
    splitOnChar sep l = [l] := by
  induction l with
  | nil => rfl
  | cons c rest ih =>
    have hc : ¬ c = sep := fun hh => h (hh ▸ List.mem_cons_self c rest)
    have hr : sep ∉ rest := fun hh => h (List.mem_cons_of_mem _ hh)
    simp [splitOnChar, hc, ih hr]

theorem splitOnChar_append (sep : Char) (l r : List Char) (h : sep ∉ l) :
    splitOnChar sep (l ++ sep :: r) = l :: splitOnChar sep r := by
  induction l with
  | nil => simp [splitOnChar]
  | cons c rest ih =>
    have hc : ¬ c = sep := fun hh => h (hh ▸ List.mem_cons_self c rest)
    have hr : sep ∉ rest := fun hh => h (List.mem_cons_of_mem _ hh)
    show splitOnChar sep (c :: (rest ++ sep :: r)) = (c :: rest) :: splitOnChar sep r
    simp only [splitOnChar, if_neg hc, ih hr]

/-- C6 counterexample: a response with status code exactly 300 and a
decodable body is classified by GetJSON as a success (nil error, body
delivered), refuting the claim that every status of at least 300 is a
failure. -/
theorem claim_C6_counterexample :
    (GetJSON envStatus300 "https://e.c/x").err = none ∧
    (GetJSON envStatus300 "https://e.c/x").body = some (Json.obj []) ∧
    300 ≤ (300 : Nat) := ⟨rfl, rfl, le_refl 300⟩

/-- C6 amended: a GetJSON outcome carries a nil error exactly when the
transport call produced a response whose status code is at most 300 and
whose body decodes; in every case in which a response exists it is
recorded in the outcome, status code included. -/
theorem claim_C6_amended (env : Env) (url : String) :
    ((GetJSON env url).err = none ↔
      ∃ r j, env url = Transport.ok r ∧ r.statusCode ≤ 300 ∧ r.decoded = some j) ∧
    ((GetJSON env url).resp = match env url with
      | Transport.ok r => some r
      | Transport.err _ => none) := by
  cases he : env url with
  | err m => simp [GetJSON, he]
  | ok r =>
    by_cases h3 : 300 < r.statusCode
    · have h4 : ¬ r.statusCode ≤ 300 := by omega
      simp [GetJSON, he, h3, h4]
    · have h4 : r.statusCode ≤ 300 := by omega
      cases hd : r.decoded with
      | none => simp [GetJSON, he, h3, hd]
      | some j => simp [GetJSON, he, h3, hd, h4]

/-- C7 counterexample: the identifier with an empty local part splits
into two parts, one of them empty, and ToUrl accepts it, refuting the
claim that identifiers such as this one are rejected. -/
theorem claim_C7_counterexample :
    ToUrl "@example.com" =
      Except.ok ("https://example.com/.well-known/lnurlp/",
                 "https://example.com/.well-known/keysend/",
                 "https://example.com/.well-known/nostr.json?name=") := rfl

/-- C7 amended: ToUrl fails with the invalid-identifier error exactly
when splitting the input on the at sign does not yield exactly two
parts (zero or more than one at sign); emptiness of the parts is not
checked, so an empty local part or empty domain is accepted. -/
theorem claim_C7_amended (id : String) :
    (∃ e, ToUrl id = Except.error e) ↔ (splitOnChar '@' id.data).length ≠ 2 := by
  rcases hs : splitOnChar '@' id.data with _ | ⟨a, _ | ⟨b, _ | ⟨c, t⟩⟩⟩ <;>
    simp [ToUrl, hs]

/-- C8 confirmed: for every identifier built from a local part and a
domain neither of which contains an at sign (what ToUrl accepts), the
three resolved URLs are exactly the fixed templates with domain and
local part substituted verbatim. -/
theorem claim_C8_templates (localPart domain : String)
    (h1 : '@' ∉ localPart.data) (h2 : '@' ∉ domain.data) :
    ToUrl (localPart ++ "@" ++ domain) =
      Except.ok ("https://" ++ domain ++ "/.well-known/lnurlp/" ++ localPart,
                 "https://" ++ domain ++ "/.well-known/keysend/" ++ localPart,
                 "https://" ++ domain ++ "/.well-known/nostr.json?name=" ++ localPart) := by
  obtain ⟨l⟩ := localPart
  obtain ⟨d⟩ := domain
  have hdata : (String.mk l ++ "@" ++ String.mk d).data = l ++ '@' :: d := by
    show (l ++ ['@']) ++ d = l ++ '@' :: d
    simp
  unfold ToUrl
  rw [hdata, splitOnChar_append '@' l d h1, splitOnChar_of_not_mem '@' d h2]

/-- C8 witness: the alice at example.com instance of the template
theorem. -/
theorem claim_C8_witness :
    ToUrl "alice@example.com" =
      Except.ok ("https://example.com/.well-known/lnurlp/alice",
                 "https://example.com/.well-known/keysend/alice",
                 "https://example.com/.well-known/nostr.json?name=alice") :=
  (claim_C8_templates "alice" "example.com" (by decide) (by decide)).trans rfl

/-- C9 confirmed: the caller parameters forwarded to the callback are
the inbound query with every ln entry removed, so no ln pair from the
inbound request reaches the forwarded URL in either variant: the key
ln does not occur among the forwarded caller parameters, and the
merged multimap of variant B holds for ln exactly the values the
callback URL itself carried. -/
theorem claim_C9_no_ln (q cbQ : List (String × String)) :
    "ln" ∉ (invoiceParamsOf q).map Prod.fst ∧
    valuesAt "ln" (cbQ ++ invoiceParamsOf q) = valuesAt "ln" cbQ := by
  have hnil : (invoiceParamsOf q).filter (fun p => p.1 == "ln") = [] := by
    induction q with
    | nil => rfl
    | cons p t ih =>
      by_cases hp : p.1 = "ln"
      · simp [invoiceParamsOf, hp] at ih ⊢
      · simp [invoiceParamsOf, List.filter_cons, hp] at ih ⊢
  constructor
  · intro hmem
    obtain ⟨p, hp, hk⟩ := List.mem_map.mp hmem
    have hpf : p ∈ (invoiceParamsOf q).filter (fun pp => pp.1 == "ln") := by
      rw [List.mem_filter]
      exact ⟨hp, by simp [hk]⟩
    rw [hnil] at hpf
    exact absurd hpf (List.not_mem_nil p)
  · simp [valuesAt, List.filter_append, hnil]

/-- C4 counterexample: variant A builds the invoice URL by naive string
concatenation, so the claimed merged URL is not what is fetched: the
callback that already carries a query gains a second question mark
instead of an ampersand, and the result differs from the claimed URL in
either parameter order. -/
theorem claim_C4_counterexample :
    invoiceUrlA "https://pay.example/cb?amount=1000"
        [("ln", "alice@example.com"), ("comment", "hi")]
      = "https://pay.example/cb?amount=1000?comment=hi" ∧
    "https://pay.example/cb?amount=1000?comment=hi" ≠ "https://pay.example/cb?amount=1000&comment=hi" ∧
    "https://pay.example/cb?amount=1000?comment=hi" ≠ "https://pay.example/cb?comment=hi&amount=1000" :=
  ⟨rfl, by decide, by decide⟩

/-- C4 amended: variant B parses the callback and appends the caller
parameters to the callback's own query values, so the claimed example
merge holds there (with Values.Encode key order), and the merge is an
append on each key's value list, never an overwrite; variant A instead
concatenates the callback string, a question mark, and the encoded
caller parameters, which duplicates the question mark whenever the
callback already has a query string. -/
theorem claim_C4_amended :
    invoiceUrlB "https://pay.example/cb?amount=1000"
        [("ln", "alice@example.com"), ("comment", "hi")]
      = some ⟨"https://pay.example/cb", "amount=1000&comment=hi"⟩ ∧
    (∀ (u : Url) (q : List (String × String)) (k : String),
      valuesAt k (urlQuery u ++ invoiceParamsOf q)
        = valuesAt k (urlQuery u) ++ valuesAt k (invoiceParamsOf q)) ∧
    (∀ (cb : String) (q : List (String × String)),
      invoiceUrlA cb q = cb ++ "?" ++ encodeQuery (invoiceParamsOf q)) := by
  refine ⟨rfl, ?_, fun cb q => rfl⟩
  intro u q k
  simp [valuesAt, List.filter_append]

/-- C2 refuted by the code (code bug): when the lnurlp fetch produces
no response at all while keysend and nostr both succeed, both variants
dereference the nil lnurlp response pointer inside the failure test and
panic instead of returning 200 without a Cache-Control header; the
keysend fetch is indeed a success in that world. -/
theorem claim_C2_lnurlp_nil_panics :
    detailsHandlerA envLnurlpDown [("ln", "a@e.c")] = HResult.panic ∧
    detailsHandlerB envLnurlpDown [("ln", "a@e.c")] = HResult.panic ∧
    (GetJSON envLnurlpDown "https://e.c/.well-known/keysend/a").err = none :=
  ⟨rfl, rfl, rfl⟩

/-- C3 refuted by the code (code bug): with lnurlp answering 200 and the
invoice callback answering 404, both variants respond with the stale
lnurlp status 200 (and an absent invoice) instead of the invoice
fetch's own 404. -/
theorem claim_C3_stale_status :
    giHandlerA envInvoice404 [("ln", "a@e.c"), ("amount", "21")] = HResult.resp 200 [] (giBody none) ∧
    giHandlerB envInvoice404 [("ln", "a@e.c"), ("amount", "21")] = HResult.resp 200 [] (giBody none) ∧
    (GetJSON envInvoice404 "https://pay.example/cb?amount=21").resp
      = some ⟨404, [], some (Json.str "nf")⟩ :=
  ⟨rfl, rfl, rfl⟩

/-- C5 refuted by the code (code bug): when the lnurlp fetch succeeds
but the decoded body is a JSON array rather than an object, the type
assertion to a map panics in both variants instead of failing cleanly
with 400. -/
theorem claim_C5_non_object_panics :
    giHandlerA envArrayBody [("ln", "a@e.c")] = HResult.panic ∧
    giHandlerB envArrayBody [("ln", "a@e.c")] = HResult.panic ∧
    (GetJSON envArrayBody "https://e.c/.well-known/lnurlp/a").err = none :=
  ⟨rfl, rfl, rfl⟩

/-- C1 counterexample: in a world in which the keysend fetch is a
success in GetJSON's classification (status 300, decodable body) while
lnurlp and nostr fail, both variants return 400 even though one of the
three outcomes is Ok, and the 400 body of variant B still carries the
keysend document; this refutes both the claimed rule that one Ok
outcome yields 200 and the claim that 400 happens only when all three
fetches failed. -/
theorem claim_C1_counterexample :
    detailsHandlerB envKeysend300 [("ln", "a@e.c")] =
      HResult.resp 400 [] (lnBodyB none (some (Json.obj [("pubkey", Json.str "k")])) none) ∧
    detailsHandlerA envKeysend300 [("ln", "a@e.c")] =
      HResult.resp 400 [] (lnBodyA none (some (Json.obj [("pubkey", Json.str "k")])) none 500
        "No details: https://e.c/.well-known/lnurlp/a - <nil>") ∧
    (GetJSON envKeysend300 "https://e.c/.well-known/keysend/a").err = none :=
  ⟨rfl, rfl, rfl⟩

theorem GetJSON_resp_of_ok (env : Env) (u : String) (r : HttpResp)
    (h : env u = Transport.ok r) : (GetJSON env u).resp = some r := by
  by_cases h3 : 300 < r.statusCode
  · simp [GetJSON, h, h3]
  · cases hd : r.decoded <;> simp [GetJSON, h, h3, hd]

theorem GetJSON_slot_of_ok (env : Env) (u : String) (r : HttpResp)
    (h : env u = Transport.ok r) : slotOfFetch (GetJSON env u) = respSlot r := by
  by_cases h3 : 300 < r.statusCode
  · simp [GetJSON, slotOfFetch, respSlot, h, h3]
  · cases hd : r.decoded <;> simp [GetJSON, slotOfFetch, respSlot, h, h3, hd]

theorem GetJSONB_resp_of_ok (env : Env) (u : String) (r : HttpResp)
    (h : env (rewriteAlby u) = Transport.ok r) : (GetJSON_B env u).resp = some r := by
  by_cases h3 : 300 < r.statusCode
  · simp [GetJSON_B, h, h3]
  · cases hd : r.decoded <;> simp [GetJSON_B, h, h3, hd]

theorem GetJSONB_slot_of_ok (env : Env) (u : String) (r : HttpResp)
    (h : env (rewriteAlby u) = Transport.ok r) : slotOfFetch (GetJSON_B env u) = respSlot r := by
  by_cases h3 : 300 < r.statusCode
  · simp [GetJSON_B, slotOfFetch, respSlot, h, h3]
  · cases hd : r.decoded <;> simp [GetJSON_B, slotOfFetch, respSlot, h, h3, hd]

theorem detailsB_characterization (env : Env) (q : List (String × String))
    (lu ku nu : String) (rl rk rn : HttpResp)
    (hTo : ToUrl (queryGet q "ln") = Except.ok (lu, ku, nu))
    (hl : env (rewriteAlby lu) = Transport.ok rl)
    (hk : env (rewriteAlby ku) = Transport.ok rk)
    (hn : env (rewriteAlby nu) = Transport.ok rn) :
    detailsHandlerB env q =
      if 300 ≤ rl.statusCode ∧ 300 ≤ rk.statusCode ∧ 300 ≤ rn.statusCode then
        HResult.resp 400 [] (lnBodyB (respSlot rl) (respSlot rk) (respSlot rn))
      else
        HResult.resp 200 [("Cache-Control", headerGet rl.headers "Cache-Control")]
          (lnBodyB (respSlot rl) (respSlot rk) (respSlot rn)) := by
  have el := GetJSONB_resp_of_ok env lu rl hl
  have ek := GetJSONB_resp_of_ok env ku rk hk
  have en := GetJSONB_resp_of_ok env nu rn hn
  have sl := GetJSONB_slot_of_ok env lu rl hl
  have sk := GetJSONB_slot_of_ok env ku rk hk
  have sn := GetJSONB_slot_of_ok env nu rn hn
  by_cases h1 : 300 ≤ rl.statusCode <;> by_cases h2 : 300 ≤ rk.statusCode <;>
    by_cases h3 : 300 ≤ rn.statusCode <;>
    simp [detailsHandlerB, hTo, el, ek, en, sl, sk, sn, h1, h2, h3]

theorem detailsA_characterization (env : Env) (q : List (String × String))
    (lu ku nu : String) (rla rka rna : HttpResp)
    (hTo : ToUrl (queryGet q "ln") = Except.ok (lu, ku, nu))
    (hla : env lu = Transport.ok rla)
    (hka : env ku = Transport.ok rka)
    (hna : env nu = Transport.ok rna) :
    detailsHandlerA env q =
      if 300 ≤ rla.statusCode ∧ 300 ≤ rka.statusCode ∧ 300 ≤ rna.statusCode then
        match (GetJSON env lu).err with
        | none => HResult.panic
        | some m =>
          HResult.resp 400 [] (lnBodyA (respSlot rla) (respSlot rka) (respSlot rna) rla.statusCode m)
      else
        HResult.resp 200 [("Cache-Control", headerGet rla.headers "Cache-Control")]
          (lnBodyA (respSlot rla) (respSlot rka) (respSlot rna) 0 "") := by
  have el := GetJSON_resp_of_ok env lu rla hla
  have ek := GetJSON_resp_of_ok env ku rka hka
  have en := GetJSON_resp_of_ok env nu rna hna
  have sl := GetJSON_slot_of_ok env lu rla hla
  have sk := GetJSON_slot_of_ok env ku rka hka
  have sn := GetJSON_slot_of_ok env nu rna hna
  by_cases h1 : 300 ≤ rla.statusCode
  · by_cases h2 : 300 ≤ rka.statusCode
    · by_cases h3 : 300 ≤ rna.statusCode
      · cases herr : (GetJSON env lu).err with
        | none => simp [detailsHandlerA, hTo, el, ek, en, sl, sk, sn, h1, h2, h3, herr]
        | some m => simp [detailsHandlerA, hTo, el, ek, en, sl, sk, sn, h1, h2, h3, herr]
      · simp [detailsHandlerA, hTo, el, ek, en, sl, sk, sn, h1, h2, h3]
    · simp [detailsHandlerA, hTo, el, ek, en, sl, sk, sn, h1, h2]
  · simp [detailsHandlerA, hTo, el, ek, en, sl, sk, sn, h1]

/-- C1 amended: provided each of the three fetches produced an HTTP
response (in variant A for the plain URLs, in variant B for the
rewritten ones), the aggregate of variant B returns 400 exactly when
all three status codes are at least 300 and otherwise 200 with the
lnurlp fetch's Cache-Control header; variant A agrees on the 200 side,
but on the all-at-least-300 side it returns 400 (carrying the lnurlp
status and error message in the body's error member) only when the
lnurlp fetch was classified failed, and panics on the nil lnurlpError
when lnurlp answered exactly 300 with a decodable body.  In both
variants each slot holds the decoded document exactly when its own
fetch succeeded in GetJSON's classification (status at most 300 and a
decodable body), so a status of exactly 300 populates its slot yet
counts as failed by the aggregate test. -/
theorem claim_C1_amended (env : Env) (q : List (String × String))
    (lu ku nu : String) (rl rk rn rla rka rna : HttpResp)
    (hTo : ToUrl (queryGet q "ln") = Except.ok (lu, ku, nu))
    (hl : env (rewriteAlby lu) = Transport.ok rl)
    (hk : env (rewriteAlby ku) = Transport.ok rk)
    (hn : env (rewriteAlby nu) = Transport.ok rn)
    (hla : env lu = Transport.ok rla)
    (hka : env ku = Transport.ok rka)
    (hna : env nu = Transport.ok rna) :
    (detailsHandlerB env q =
      if 300 ≤ rl.statusCode ∧ 300 ≤ rk.statusCode ∧ 300 ≤ rn.statusCode then
        HResult.resp 400 [] (lnBodyB (respSlot rl) (respSlot rk) (respSlot rn))
      else
        HResult.resp 200 [("Cache-Control", headerGet rl.headers "Cache-Control")]
          (lnBodyB (respSlot rl) (respSlot rk) (respSlot rn))) ∧
    (detailsHandlerA env q =
      if 300 ≤ rla.statusCode ∧ 300 ≤ rka.statusCode ∧ 300 ≤ rna.statusCode then
        match (GetJSON env lu).err with
        | none => HResult.panic
        | some m =>
          HResult.resp 400 [] (lnBodyA (respSlot rla) (respSlot rka) (respSlot rna) rla.statusCode m)
      else
        HResult.resp 200 [("Cache-Control", headerGet rla.headers "Cache-Control")]
          (lnBodyA (respSlot rla) (respSlot rka) (respSlot rna) 0 "")) :=
  ⟨detailsB_characterization env q lu ku nu rl rk rn hTo hl hk hn,
   detailsA_characterization env q lu ku nu rla rka rna hTo hla hka hna⟩

/-- C1 witness: the amended aggregate theorem applied to two concrete
worlds: one in which all three fetches answer 200 with an object body
(both variants respond 200), and one in which all three answer exactly
300 with an object body (variant B responds 400 with every slot
populated, variant A panics on the nil lnurlpError). -/
theorem claim_C1_witness :
    (detailsHandlerB envAllOk [("ln", "a@e.c")] =
      HResult.resp 200 [("Cache-Control", "max-age=60")]
        (lnBodyB (some (Json.obj [])) (some (Json.obj [])) (some (Json.obj [])))) ∧
    (detailsHandlerA envAllOk [("ln", "a@e.c")] =
      HResult.resp 200 [("Cache-Control", "max-age=60")]
        (lnBodyA (some (Json.obj [])) (some (Json.obj [])) (some (Json.obj [])) 0 "")) ∧
    (detailsHandlerB envStatus300 [("ln", "a@e.c")] =
      HResult.resp 400 [] (lnBodyB (some (Json.obj [])) (some (Json.obj [])) (some (Json.obj [])))) ∧
    (detailsHandlerA envStatus300 [("ln", "a@e.c")] = HResult.panic) := by
  have h := claim_C1_amended envAllOk [("ln", "a@e.c")]
    "https://e.c/.well-known/lnurlp/a" "https://e.c/.well-known/keysend/a"
    "https://e.c/.well-known/nostr.json?name=a"
    ⟨200, [("Cache-Control", "max-age=60")], some (Json.obj [])⟩
    ⟨200, [("Cache-Control", "max-age=60")], some (Json.obj [])⟩
    ⟨200, [("Cache-Control", "max-age=60")], some (Json.obj [])⟩
    ⟨200, [("Cache-Control", "max-age=60")], some (Json.obj [])⟩
    ⟨200, [("Cache-Control", "max-age=60")], some (Json.obj [])⟩
    ⟨200, [("Cache-Control", "max-age=60")], some (Json.obj [])⟩
    rfl rfl rfl rfl rfl rfl rfl
  have h3 := claim_C1_amended envStatus300 [("ln", "a@e.c")]
    "https://e.c/.well-known/lnurlp/a" "https://e.c/.well-known/keysend/a"
    "https://e.c/.well-known/nostr.json?name=a"
    ⟨300, [], some (Json.obj [])⟩ ⟨300, [], some (Json.obj [])⟩ ⟨300, [], some (Json.obj [])⟩
    ⟨300, [], some (Json.obj [])⟩ ⟨300, [], some (Json.obj [])⟩ ⟨300, [], some (Json.obj [])⟩
    rfl rfl rfl rfl rfl rfl rfl
  exact ⟨h.1.trans rfl, h.2.trans rfl, h3.1.trans rfl, h3.2.trans rfl⟩

theorem detailsA_success (env : Env) (q : List (String × String))
    (lu ku nu : String) (rl rk rn : HttpResp)
    (hTo : ToUrl (queryGet q "ln") = Except.ok (lu, ku, nu))
    (hl : env lu = Transport.ok rl)
    (hk : env ku = Transport.ok rk)
    (hn : env nu = Transport.ok rn)
    (hsucc : rl.statusCode < 300 ∨ rk.statusCode < 300 ∨ rn.statusCode < 300) :
    detailsHandlerA env q =
      HResult.resp 200 [("Cache-Control", headerGet rl.headers "Cache-Control")]
        (lnBodyA (respSlot rl) (respSlot rk) (respSlot rn) 0 "") := by
  have el := GetJSON_resp_of_ok env lu rl hl
  have ek := GetJSON_resp_of_ok env ku rk hk
  have en := GetJSON_resp_of_ok env nu rn hn
  have sl := GetJSON_slot_of_ok env lu rl hl
  have sk := GetJSON_slot_of_ok env ku rk hk
  have sn := GetJSON_slot_of_ok env nu rn hn
  by_cases h1 : 300 ≤ rl.statusCode
  · by_cases h2 : 300 ≤ rk.statusCode
    · by_cases h3 : 300 ≤ rn.statusCode
      · exfalso
        rcases hsucc with h | h | h <;> omega
      · simp [detailsHandlerA, hTo, el, ek, en, sl, sk, sn, h1, h2, h3]
    · simp [detailsHandlerA, hTo, el, ek, en, sl, sk, sn, h1, h2]
  · simp [detailsHandlerA, hTo, el, ek, en, sl, sk, sn, h1]

/-- C10 counterexample: in a world in which every fetch answers 200
with an object body, the two variants return the same status but
different response bodies, because the body of variant A always carries
a fourth error member; so the variants are not observationally
equivalent at the HTTP surface. -/
theorem claim_C10_counterexample :
    detailsHandlerA envAllOk [("ln", "a@e.c")] =
      HResult.resp 200 [("Cache-Control", "max-age=60")]
        (lnBodyA (some (Json.obj [])) (some (Json.obj [])) (some (Json.obj [])) 0 "") ∧
    detailsHandlerB envAllOk [("ln", "a@e.c")] =
      HResult.resp 200 [("Cache-Control", "max-age=60")]
        (lnBodyB (some (Json.obj [])) (some (Json.obj [])) (some (Json.obj []))) ∧
    lnBodyA (some (Json.obj [])) (some (Json.obj [])) (some (Json.obj [])) 0 ""
      ≠ lnBodyB (some (Json.obj [])) (some (Json.obj [])) (some (Json.obj [])) :=
  ⟨rfl, rfl, by simp [lnBodyA, lnBodyB]⟩

/-- C10 amended: on the details endpoint, whenever the hostname rewrite
does not apply, all three fetches produce responses, and at least one
status code is below 300, the two variants return the same status code,
the same Cache-Control header, and the same three document slots; the
bodies differ exactly by the extra error member of variant A.  Full
observational equivalence fails: beyond this body difference, the
all-failed path of variant A can panic where variant B returns 400, and
the two variants fetch differently constructed invoice URLs. -/
theorem claim_C10_amended (env : Env) (q : List (String × String))
    (lu ku nu : String) (rl rk rn : HttpResp)
    (hTo : ToUrl (queryGet q "ln") = Except.ok (lu, ku, nu))
    (hlu : rewriteAlby lu = lu) (hku : rewriteAlby ku = ku) (hnu : rewriteAlby nu = nu)
    (hl : env lu = Transport.ok rl)
    (hk : env ku = Transport.ok rk)
    (hn : env nu = Transport.ok rn)
    (hsucc : rl.statusCode < 300 ∨ rk.statusCode < 300 ∨ rn.statusCode < 300) :
    detailsHandlerA env q =
      HResult.resp 200 [("Cache-Control", headerGet rl.headers "Cache-Control")]
        (Json.obj ([("lnurlp", jsonOfOpt (respSlot rl)), ("keysend", jsonOfOpt (respSlot rk)),
                    ("nostr", jsonOfOpt (respSlot rn))] ++
          [("error", Json.obj [("status", Json.num 0), ("message", Json.str "")])])) ∧
    detailsHandlerB env q =
      HResult.resp 200 [("Cache-Control", headerGet rl.headers "Cache-Control")]
        (Json.obj [("lnurlp", jsonOfOpt (respSlot rl)), ("keysend", jsonOfOpt (respSlot rk)),
                   ("nostr", jsonOfOpt (respSlot rn))]) := by
  constructor
  · exact (detailsA_success env q lu ku nu rl rk rn hTo hl hk hn hsucc).trans rfl
  · have hl2 : env (rewriteAlby lu) = Transport.ok rl := by rw [hlu]; exact hl
    have hk2 : env (rewriteAlby ku) = Transport.ok rk := by rw [hku]; exact hk
    have hn2 : env (rewriteAlby nu) = Transport.ok rn := by rw [hnu]; exact hn
    have h := detailsB_characterization env q lu ku nu rl rk rn hTo hl2 hk2 hn2
    rw [h]
    have hno : ¬ (300 ≤ rl.statusCode ∧ 300 ≤ rk.statusCode ∧ 300 ≤ rn.statusCode) := by
      intro hc
      rcases hsucc with hx | hx | hx <;> omega
    simp [hno, lnBodyB]

/-- C10 witness: the agreement theorem applied to the all-success
world. -/
theorem claim_C10_witness :
    detailsHandlerA envAllOk [("ln", "a@e.c")] =
      HResult.resp 200 [("Cache-Control", "max-age=60")]
        (Json.obj [("lnurlp", Json.obj []), ("keysend", Json.obj []), ("nostr", Json.obj []),
                   ("error", Json.obj [("status", Json.num 0), ("message", Json.str "")])]) ∧
    detailsHandlerB envAllOk [("ln", "a@e.c")] =
      HResult.resp 200 [("Cache-Control", "max-age=60")]
        (Json.obj [("lnurlp", Json.obj []), ("keysend", Json.obj []), ("nostr", Json.obj [])]) := by
  have h := claim_C10_amended envAllOk [("ln", "a@e.c")]
    "https://e.c/.well-known/lnurlp/a" "https://e.c/.well-known/keysend/a"
    "https://e.c/.well-known/nostr.json?name=a"
    ⟨200, [("Cache-Control", "max-age=60")], some (Json.obj [])⟩
    ⟨200, [("Cache-Control", "max-age=60")], some (Json.obj [])⟩
    ⟨200, [("Cache-Control", "max-age=60")], some (Json.obj [])⟩
    rfl rfl rfl rfl rfl rfl rfl (Or.inl (by decide))
  exact ⟨h.1.trans rfl, h.2.trans rfl⟩
